import Mathlib

/-!
Shallow embedding of `uniauth_saml2_idp/models.py` (repository rafou/uniAuth).

The Django models become Lean structures carrying the fields the claims are
about; DB-managed timestamps (`created`/`updated`/`last_seen`) are omitted
except where a claim needs them.  External collaborators are passed in as
explicit values:

* `json.loads` on a stored text field is a function
  `JsonLoads : String → Except String JsonDict` (the error string is the
  exception message the real parser would raise);
* the HTTP client's answer to the one request `MetadataStore.validate`
  issues is an `Except String Nat` (transport-error message, or status code);
* the XML parsing of local metadata files is summarised by an
  `Option String` (the exception message, if any file failed to parse);
* `import_string(self.attribute_processor)` and the
  `get_idp_config().metadata.service(...)` lookup are each an
  `Option String` outcome (`some msg` = the exception's message).

Python dicts over string keys are association lists with Python's
assignment semantics (`dictSet`): an existing key keeps its position and
gets the new value, a new key is appended.
-/

deriving instance DecidableEq for Except

namespace UniAuth

/-- A parsed JSON object, as used for `attribute_mapping` and `kwargs`. -/
abbrev JsonDict := List (String × String)

/-- The behaviour of `json.loads` on the stored text fields:
`.error e` models the parser raising with message `e`. -/
abbrev JsonLoads := String → Except String JsonDict

/-- Python `d[k] = v` on a string-keyed dict: replace in place when the key
exists, append otherwise. -/
def dictSet {α : Type} (d : List (String × α)) (k : String) (v : α) :
    List (String × α) :=
  if d.any (fun p => p.1 == k) then
    d.map (fun p => if p.1 == k then (k, v) else p)
  else
    d ++ [(k, v)]

/-- Python truthiness of an optional string field (Django `CharField` with
`null=True`): `None` and the empty string are falsy. -/
def truthyOptStr : Option String → Bool
  | none => false
  | some s => !s.isEmpty

/-! ## AgreementRecord -/

/-- `models.AgreementRecord`: one consent event.  `user` is the FK id,
`created` is the creation instant in seconds. -/
structure AgreementRecord where
  user : Nat
  sp_entity_id : String
  attrs : String
  created : Int
deriving DecidableEq, Repr

/-- `AgreementRecord.is_expired`.  `valid_for` is
`getattr(settings, "SAML_IDP_USER_AGREEMENT_VALID_FOR")` (hours): `none`
models a setting stored as `None`; `not valid_for` is true exactly for
`None` and `0`.  `now` is `timezone.now()`; instants are in seconds, so
`timedelta(hours=valid_for)` is `valid_for * 3600`. -/
def AgreementRecord.is_expired (valid_for : Option Int) (now : Int)
    (rec : AgreementRecord) : Bool :=
  match valid_for with
  | none => false
  | some v =>
    if v = 0 then false
    else decide (now > rec.created + v * 3600)

/-- Python `str.split(",")` over the character list: split at every comma,
keeping empty pieces (`"".split(",") == [""]`). -/
def splitCommaChars : List Char → List (List Char)
  | [] => [[]]
  | c :: rest =>
    match splitCommaChars rest, c == ',' with
    | r, true => [] :: r
    | [], false => [[c]]
    | g :: gs, false => (c :: g) :: gs

/-- Python `self.attrs.split(",")`. -/
def splitComma (s : String) : List String :=
  (splitCommaChars s.toList).map (fun cs => String.mk cs)

/-- `AgreementRecord.wants_more_attrs`:
`bool(set(newAttrs).difference(self.attrs.split(",")))` — the difference is
non-empty iff some requested attribute is missing from the comma-split
stored set. -/
def AgreementRecord.wants_more_attrs (rec : AgreementRecord)
    (newAttrs : List String) : Bool :=
  newAttrs.any (fun a => !((splitComma rec.attrs).contains a))

/-! ## ServiceProvider -/

/-- `models.ServiceProvider`: one row per federated SP. -/
structure ServiceProvider where
  entity_id : String
  display_name : String
  metadata_url : String
  description : String
  agreement_screen : Bool
  agreement_consent_form : Bool
  agreement_message : String
  signing_algorithm : String
  digest_algorithm : String
  disable_encrypted_assertions : Bool
  attribute_processor : String
  attribute_mapping : String
  force_attribute_release : Bool
  is_valid : Bool
  is_active : Bool
deriving DecidableEq, Repr

/-- Outcomes of the two external checks `ServiceProvider.validate` performs
besides `json.loads(self.attribute_mapping)`:
`processorError` is the exception message of
`import_string(self.attribute_processor)` (`none` = import succeeded);
`metadataError` is the exception message of the
`get_idp_config().metadata.service(entity_id, ...)` lookup. -/
structure SPCheckOutcomes where
  processorError : Option String
  metadataError : Option String
deriving DecidableEq, Repr

/-- `ServiceProvider.validate`: runs the three checks in order
(processor import, mapping parse, metadata presence), on each failure
recording the formatted message in `error` (later failures overwrite) and
setting `is_active = False`; then on any failure sets
`is_valid = is_active` and raises (`.error`), on success sets
`is_valid = True` and returns `True` (`.ok true`).  The returned state is
the saved row. -/
def ServiceProvider.validate (jp : JsonLoads) (c : SPCheckOutcomes)
    (sp : ServiceProvider) : ServiceProvider × Except String Bool :=
  let se : ServiceProvider × Option String :=
    match c.processorError with
    | some e => ({ sp with is_active := false }, some e)
    | none => (sp, none)
  let se : ServiceProvider × Option String :=
    match jp sp.attribute_mapping with
    | .error e => ({ se.1 with is_active := false },
        some ("Attribute Mapping is not a valid JSON format: " ++ e))
    | .ok _ => se
  let se : ServiceProvider × Option String :=
    match c.metadataError with
    | some e => ({ se.1 with is_active := false },
        some (e ++ " is not present in any Metadata"))
    | none => se
  match se.2 with
  | some e => ({ se.1 with is_valid := se.1.is_active }, .error e)
  | none => ({ se.1 with is_valid := true }, .ok true)

/-- The value of the `error` variable at the end of
`ServiceProvider.validate`'s three checks: the last failing check's
formatted message (metadata presence overrides mapping overrides
processor), `none` when all checks passed. -/
def spLastError (jp : JsonLoads) (c : SPCheckOutcomes)
    (sp : ServiceProvider) : Option String :=
  let e1 := c.processorError
  let e2 :=
    match jp sp.attribute_mapping with
    | .error e => some ("Attribute Mapping is not a valid JSON format: " ++ e)
    | .ok _ => e1
  match c.metadataError with
  | some e => some (e ++ " is not present in any Metadata")
  | none => e2

/-- The per-SP record of `ServiceProvider.as_idpspconfig_dict_element`. -/
structure IdpSpConfigElement where
  processor : String
  attribute_mapping : JsonDict
  force_attribute_release : Bool
  display_name : String
  display_description : String
  display_agreement_message : String
  signing_algorithm : String
  digest_algorithm : String
  disable_encrypted_assertions : Bool
  show_user_agreement_screen : Bool
  display_agreement_consent_form : Bool
deriving DecidableEq, Repr

/-- `ServiceProvider.as_idpspconfig_dict_element`: projects one row into
its SPConfig record; `json.loads(self.attribute_mapping)` may raise, which
propagates (`.error`). -/
def ServiceProvider.as_idpspconfig_dict_element (jp : JsonLoads)
    (sp : ServiceProvider) : Except String IdpSpConfigElement :=
  match jp sp.attribute_mapping with
  | .error e => .error e
  | .ok m => .ok
    { processor := sp.attribute_processor
      attribute_mapping := m
      force_attribute_release := sp.force_attribute_release
      display_name := sp.display_name
      display_description := sp.description
      display_agreement_message := sp.agreement_message
      signing_algorithm := sp.signing_algorithm
      digest_algorithm := sp.digest_algorithm
      disable_encrypted_assertions := sp.disable_encrypted_assertions
      show_user_agreement_screen := sp.agreement_screen
      display_agreement_consent_form := sp.agreement_consent_form }

/-- The `for entity in cls.objects.filter(is_active=True)` loop of
`ServiceProvider.as_idpspconfig_dict`, threading the dict `d`; an
exception from one element's projection propagates. -/
def as_idpspconfig_dict_go (jp : JsonLoads) :
    List ServiceProvider → List (String × IdpSpConfigElement) →
    Except String (List (String × IdpSpConfigElement))
  | [], d => .ok d
  | sp :: rest, d =>
    match sp.as_idpspconfig_dict_element jp with
    | .error e => .error e
    | .ok el => as_idpspconfig_dict_go jp rest (dictSet d sp.entity_id el)

/-- `ServiceProvider.as_idpspconfig_dict` (classmethod): the table is the
list `sps`; only rows with `is_active=True` are visited. -/
def as_idpspconfig_dict (jp : JsonLoads) (sps : List ServiceProvider) :
    Except String (List (String × IdpSpConfigElement)) :=
  as_idpspconfig_dict_go jp (sps.filter (fun sp => sp.is_active)) []

/-! ## MetadataStore -/

/-- The `MDStype` choices of `models.MetadataStore.type`.  `local` is a
Lean keyword, hence the trailing underscore. -/
inductive MDSType
  | remote
  | mdq
  | local_
deriving DecidableEq, Repr

/-- `models.MetadataStore`: one row per metadata feed.  `file` is the
stored file's name (`none` = no file attached); `.path` and `.url` of the
Django `FieldFile` are modelled as the name itself. -/
structure MetadataStore where
  name : String
  url : Option String
  file : Option String
  type : MDSType
  kwargs : String
  is_valid : Bool
  is_active : Bool
deriving DecidableEq, Repr

/-- HTTP method of the one request `MetadataStore.validate` issues. -/
inductive HttpMethod
  | get
  | head
deriving DecidableEq, Repr

/-- The HTTP request `MetadataStore.validate` issues, from the source:
`requests.head(self.url + '/entities/')` for `mdq`,
`requests.get(self.url)` for `remote`, none for `local`.  (A `None` url
makes the concatenation raise inside the `try`, surfacing as a transport
error; the target below is the one computed for a present url.) -/
def mdsRequest (s : MetadataStore) : Option (HttpMethod × String) :=
  match s.type with
  | .mdq => some (.head, (s.url.getD "") ++ "/entities/")
  | .remote => some (.get, s.url.getD "")
  | .local_ => none

/-- External outcomes consumed by `MetadataStore.validate` besides
`json.loads(self.kwargs)`: `http` is the answer to the issued request
(`.error e` = `requests` raised with message `e`, `.ok n` = response with
status code `n`); `xmlError` summarises the `defusedxml` parse of the
attached file and/or the files listed under `url` (`some e` = some parse
raised with message `e`). -/
structure MDSCheckOutcomes where
  http : Except String Nat
  xmlError : Option String
deriving DecidableEq, Repr

/-- `MetadataStore.validate`: kind-specific check, then the unconditional
`json.loads(self.kwargs)` check; failures recorded in `error` overwrite
earlier ones and force `is_active = False`.  A non-200 response for
`remote`/`mdq` only logs and sets `is_active = False` — it does not set
`error`.  On `error`: `is_valid = is_active`, save, raise (`.error`);
otherwise `is_valid = True`, save, return `True`. -/
def MetadataStore.validate (jp : JsonLoads) (c : MDSCheckOutcomes)
    (s : MetadataStore) : MetadataStore × Except String Bool :=
  let se : MetadataStore × Option String :=
    match s.type with
    | .mdq =>
      match c.http with
      | .ok status =>
        if status != 200 then ({ s with is_active := false }, none)
        else (s, none)
      | .error e =>
        ({ s with is_active := false },
          some ("Endpoint is not reachable: " ++ e))
    | .remote =>
      match c.http with
      | .ok status =>
        if status != 200 then ({ s with is_active := false }, none)
        else (s, none)
      | .error e =>
        ({ s with is_active := false },
          some ("Endpoint is not reachable: " ++ e))
    | .local_ =>
      let se : MetadataStore × Option String :=
        if s.file.isSome || truthyOptStr s.url then
          match c.xmlError with
          | some e =>
            ({ s with is_active := false },
              some ("found an invalid XML: " ++ e))
          | none => (s, none)
        else (s, none)
      if !(truthyOptStr s.url || s.file.isSome) then
        ({ se.1 with is_active := false },
          some "Empty file or url for \"local\" type. Metadata is not valid")
      else se
  let se : MetadataStore × Option String :=
    match jp s.kwargs with
    | .error e =>
      ({ se.1 with is_active := false },
        some ("kwargs JSON format error: " ++ e))
    | .ok _ => se
  match se.2 with
  | some e => ({ se.1 with is_valid := se.1.is_active }, .error e)
  | none => ({ se.1 with is_valid := true }, .ok true)

/-- One value of the metadata-source snapshot: either a bare path/url
(`local`, filesystem storage; Python may return `None` here when both url
and file are unset) or a dict (`remote`/`mdq`, and the object-storage
`local` case). -/
inductive SourceDescriptor
  | bare (p : Option String)
  | dict (d : List (String × Option String))
deriving DecidableEq, Repr

/-- `MetadataStore.as_pysaml2_mdstore_row`.  `s3storage` is
`settings.DEFAULT_FILE_STORAGE == 'storages.backends.s3boto3.S3Boto3Storage'`.
For `remote`/`mdq`: `{url: self.url}`, plus `cert` when a file is
attached, then `d.update(json.loads(self.kwargs))` when `kwargs` is
truthy (a parse failure propagates).  For `local` with object storage,
`{"url": self.file.url}` (raises when no file is attached); otherwise the
bare url-or-file-path. -/
def MetadataStore.as_pysaml2_mdstore_row (jp : JsonLoads) (s3storage : Bool)
    (s : MetadataStore) : Except String SourceDescriptor :=
  match s.type with
  | .remote | .mdq =>
    let d : List (String × Option String) := [("url", s.url)]
    let d :=
      match s.file with
      | some f => dictSet d "cert" (some f)
      | none => d
    if s.kwargs.isEmpty then .ok (.dict d)
    else
      match jp s.kwargs with
      | .error e => .error e
      | .ok kw => .ok (.dict (kw.foldl (fun acc p => dictSet acc p.1 (some p.2)) d))
  | .local_ =>
    if s3storage then
      match s.file with
      | some f => .ok (.dict [("url", some f)])
      | none => .error "ValueError: The file attribute has no file associated with it."
    else
      match s.file with
      | some f => .ok (.bare (some f))
      | none => .ok (.bare s.url)

/-- The snapshot dict of `MetadataStore.as_pysaml_mdstore_dict`, with one
list per possible key (a key the Python dict never received corresponds to
an empty list). -/
structure MdStoreDict where
  remote : List SourceDescriptor
  mdq : List SourceDescriptor
  local_ : List SourceDescriptor
deriving DecidableEq, Repr

/-- The empty snapshot (`d = {}` before the loop). -/
def MdStoreDict.empty : MdStoreDict :=
  { remote := [], mdq := [], local_ := [] }

/-- `isinstance(value, dict) and "url" in value`. -/
def hasUrlKey : SourceDescriptor → Bool
  | .dict d => d.any (fun p => p.1 == "url")
  | .bare _ => false

/-- One loop iteration's dict update in `as_pysaml_mdstore_dict`: first the
regrouping `store.type = "remote"` when the row is a dict containing
`"url"`, then append under the (possibly regrouped) kind. -/
def MdStoreDict.addRow (d : MdStoreDict) (t : MDSType) (v : SourceDescriptor) :
    MdStoreDict :=
  let t := if hasUrlKey v then MDSType.remote else t
  match t with
  | .remote => { d with remote := d.remote ++ [v] }
  | .mdq => { d with mdq := d.mdq ++ [v] }
  | .local_ => { d with local_ := d.local_ ++ [v] }

/-- The activity/validity gate
`cls.objects.filter(is_active=True, is_valid=True)`. -/
def mdGate (s : MetadataStore) : Bool :=
  s.is_active && s.is_valid

/-- The `for store in stores` loop of `as_pysaml_mdstore_dict`; an
exception from one row's build propagates. -/
def as_pysaml_mdstore_dict_go (jp : JsonLoads) (s3storage : Bool) :
    List MetadataStore → MdStoreDict → Except String MdStoreDict
  | [], d => .ok d
  | s :: rest, d =>
    match s.as_pysaml2_mdstore_row jp s3storage with
    | .error e => .error e
    | .ok v => as_pysaml_mdstore_dict_go jp s3storage rest (d.addRow s.type v)

/-- `MetadataStore.as_pysaml_mdstore_dict` (classmethod): the table is the
list `stores`; only rows passing `mdGate` are visited. -/
def as_pysaml_mdstore_dict (jp : JsonLoads) (s3storage : Bool)
    (stores : List MetadataStore) : Except String MdStoreDict :=
  as_pysaml_mdstore_dict_go jp s3storage (stores.filter mdGate) MdStoreDict.empty

/-! ## PersistentId -/

/-- `models.PersistentId`: `user` and `sp` are FK ids, `persistent_id`
the UUID value as a number. -/
structure PersistentId where
  user : Nat
  sp : Nat
  persistent_id : Nat
deriving DecidableEq, Repr

/-- The two `UniqueConstraint`s of `PersistentId.Meta`:
`unique_ids_per_sp` on `(sp, persistent_id)` and `unique_users_per_sp` on
`(sp, user)`, as a pairwise relation over the table. -/
def pidConstraint (r1 r2 : PersistentId) : Prop :=
  ¬(r1.sp = r2.sp ∧ r1.persistent_id = r2.persistent_id) ∧
  ¬(r1.sp = r2.sp ∧ r1.user = r2.user)

/-- A table state satisfying both unique constraints. -/
def uniquePairs (db : List PersistentId) : Prop :=
  db.Pairwise pidConstraint

instance : DecidableRel pidConstraint := fun _ _ => by
  unfold pidConstraint; infer_instance

instance (db : List PersistentId) : Decidable (uniquePairs db) := by
  unfold uniquePairs; infer_instance

/-- Modelled from the spec: the fresh-value generation loop of
`getOrCreate` (§4.6) — draw `gen 0, gen 1, …` (the stream of random
128-bit values) until one does not collide with an existing
`(sp, persistent_id)` pair, giving up when the small fixed retry bound
(`fuel`) is exhausted.  The allocation code itself is not under `src/`;
only the `PersistentId` model with its unique constraints is. -/
def allocate (gen : Nat → Nat) (sp : Nat) (db : List PersistentId) :
    Nat → Nat → Option Nat
  | 0, _ => none
  | fuel + 1, k =>
    if db.any (fun r => r.sp == sp && r.persistent_id == gen k) then
      allocate gen sp db fuel (k + 1)
    else some (gen k)

/-- Modelled from the spec: `getOrCreate(user, sp)` (§4.6) — look up the
existing `(sp, user)` row and return its identifier; if absent, allocate a
fresh non-colliding value and insert the new row.  `none` models the retry
bound surfacing as a storage error. -/
def get_or_create (gen : Nat → Nat) (fuel : Nat) (user sp : Nat)
    (db : List PersistentId) : Option (Nat × List PersistentId) :=
  match db.find? (fun r => r.sp == sp && r.user == user) with
  | some r => some (r.persistent_id, db)
  | none =>
    match allocate gen sp db fuel 0 with
    | some pid => some (pid, db ++ [{ user := user, sp := sp, persistent_id := pid }])
    | none => none

/-! ## Concrete instances used in the example theorems -/

/-- A concrete `json.loads` behaviour: the text `"k0"` parses to the empty
object, `"GOODMAP"` to a one-entry mapping, anything else raises with
message `"boom"`. -/
def jpK0 : JsonLoads := fun s =>
  if s = "k0" then .ok []
  else if s = "GOODMAP" then .ok [("email", "email")]
  else .error "boom"

/-- An `mdq` source an administrator enabled (`is_active=true`) that has
not passed validation yet (`is_valid=false`). -/
def mdqBad : MetadataStore :=
  { name := "m", url := some "https://mdq.example.org", file := none,
    type := .mdq, kwargs := "k0", is_valid := false, is_active := true }

/-- The same `mdq` source once gated (`is_active=is_valid=true`). -/
def mdqStore : MetadataStore :=
  { mdqBad with is_valid := true }

/-- The same `mdq` source, deactivated. -/
def mdqOff : MetadataStore :=
  { mdqStore with is_active := false }

/-- The snapshot produced for `[mdqStore]` alone. -/
def mdqSnap : MdStoreDict :=
  { remote := [.dict [("url", some "https://mdq.example.org")]],
    mdq := [], local_ := [] }

/-- HTTP outcome: response received, status 500. -/
def c500 : MDSCheckOutcomes := { http := .ok 500, xmlError := none }

/-- HTTP outcome: the request raised (transport error `"down"`). -/
def cErr : MDSCheckOutcomes := { http := .error "down", xmlError := none }

/-- An active SP whose stored attribute mapping parses. -/
def spGood : ServiceProvider :=
  { entity_id := "https://good.example.org/saml", display_name := "good",
    metadata_url := "", description := "", agreement_screen := false,
    agreement_consent_form := false, agreement_message := "",
    signing_algorithm := "rsa-sha256", digest_algorithm := "sha256",
    disable_encrypted_assertions := true,
    attribute_processor := "uniauth_saml2_idp.processors.base.BaseProcessor",
    attribute_mapping := "GOODMAP", force_attribute_release := false,
    is_valid := true, is_active := true }

/-- An active SP whose stored attribute mapping does not parse. -/
def spBad : ServiceProvider :=
  { spGood with
    entity_id := "https://bad.example.org/saml",
    attribute_mapping := "BADMAP" }

/-- An inactive SP (also with a valid mapping). -/
def spOff : ServiceProvider :=
  { spGood with
    entity_id := "https://off.example.org/saml",
    is_active := false, is_valid := false }

/-- A gated `remote` source whose `kwargs` text does not parse, so its
descriptor build raises. -/
def tBad : MetadataStore :=
  { name := "r", url := some "https://remote.example.org/metadata",
    file := none, type := .remote, kwargs := "BADKW",
    is_valid := true, is_active := true }

/-- A consent record created at instant 0. -/
def agRec0 : AgreementRecord :=
  { user := 7, sp_entity_id := "https://good.example.org/saml",
    attrs := "email", created := 0 }

/-- The SPConfig record `as_idpspconfig_dict_element` produces for
`spGood` under `jpK0`. -/
def elGood : IdpSpConfigElement :=
  { processor := "uniauth_saml2_idp.processors.base.BaseProcessor",
    attribute_mapping := [("email", "email")],
    force_attribute_release := false, display_name := "good",
    display_description := "", display_agreement_message := "",
    signing_algorithm := "rsa-sha256", digest_algorithm := "sha256",
    disable_encrypted_assertions := true,
    show_user_agreement_screen := false,
    display_agreement_consent_form := false }

/-- The configuration snapshot of the table `[spGood, spOff]`. -/
def dGood : List (String × IdpSpConfigElement) :=
  [("https://good.example.org/saml", elGood)]

/-- A deterministic stand-in for the random 128-bit value stream. -/
def pidGen : Nat → Nat := fun k => k

/-- The table after allocating a pseudonym for user 0 at SP 5. -/
def pidDb1 : List PersistentId :=
  [{ user := 0, sp := 5, persistent_id := 0 }]

/-- The table after additionally allocating one for user 1 at SP 5. -/
def pidDb2 : List PersistentId :=
  [{ user := 0, sp := 5, persistent_id := 0 },
   { user := 1, sp := 5, persistent_id := 1 }]

/-! ## Theorems -/

/-- Closed form of `ServiceProvider.validate`: on any recorded failure the
saved row has both flags false and the raised message is the last failing
check's; on success `is_valid` is set and `is_active` untouched. -/
theorem validate_closed_form (jp : JsonLoads) (c : SPCheckOutcomes)
    (sp : ServiceProvider) :
    ServiceProvider.validate jp c sp =
      (match spLastError jp c sp with
       | some e => ({ sp with is_active := false, is_valid := false }, Except.error e)
       | none => ({ sp with is_valid := true }, Except.ok true)) := by
  unfold ServiceProvider.validate spLastError
  cases hp : c.processorError <;>
    cases hm : jp sp.attribute_mapping <;>
      cases hd : c.metadataError <;> rfl

/-- C4: `validateServiceProvider` on any check failure forces
`is_active=false` and sets `is_valid` to the (now false) `is_active` — so a
failing run never upgrades `is_valid` — and raises the last detected
failure's message in the order processor → mapping → metadata presence
(`spLastError`); on full success it sets `is_valid=true` and leaves
`is_active` exactly as configured. -/
theorem C4_validateServiceProvider (jp : JsonLoads) (c : SPCheckOutcomes)
    (sp : ServiceProvider) :
    ServiceProvider.validate jp c sp =
      (match spLastError jp c sp with
       | some e => ({ sp with is_active := false, is_valid := false }, Except.error e)
       | none => ({ sp with is_valid := true }, Except.ok true)) :=
  validate_closed_form jp c sp

/-- C10: running `validateServiceProvider` twice with unchanged stored
fields and unchanged external check outcomes leaves the same
`(is_valid, is_active)` pair after the second run as after the first. -/
theorem C10_validateServiceProvider_idempotent (jp : JsonLoads)
    (c : SPCheckOutcomes) (sp : ServiceProvider) :
    ((ServiceProvider.validate jp c ((ServiceProvider.validate jp c sp).1)).1.is_valid,
     (ServiceProvider.validate jp c ((ServiceProvider.validate jp c sp).1)).1.is_active) =
    (((ServiceProvider.validate jp c sp).1).is_valid,
     ((ServiceProvider.validate jp c sp).1).is_active) := by
  have h1 := validate_closed_form jp c sp
  cases he : spLastError jp c sp with
  | some e =>
    rw [he] at h1
    have hs : (ServiceProvider.validate jp c sp).1 =
        { sp with is_active := false, is_valid := false } := by rw [h1]
    have h2 := validate_closed_form jp c ({ sp with is_active := false, is_valid := false })
    have he2 : spLastError jp c ({ sp with is_active := false, is_valid := false }) =
        spLastError jp c sp := rfl
    rw [he2, he] at h2
    rw [hs, h2]
  | none =>
    rw [he] at h1
    have hs : (ServiceProvider.validate jp c sp).1 =
        { sp with is_valid := true } := by rw [h1]
    have h2 := validate_closed_form jp c ({ sp with is_valid := true })
    have he2 : spLastError jp c ({ sp with is_valid := true }) =
        spLastError jp c sp := rfl
    rw [he2, he] at h2
    rw [hs, h2]

/-- C5 counterexample: with the validity setting `-1` (≤ 0) and a record
only one hour old, `is_expired` returns `true` — the claim says any
`validityHours <= 0` means the record never expires. -/
theorem C5_counterexample :
    (-1 : Int) ≤ 0 ∧
    AgreementRecord.is_expired (some (-1)) 3600 agRec0 = true := by decide

/-- C5 amended: `is_expired` returns false when the validity setting is
stored as `None` or `0` (Python falsy), regardless of age; for any nonzero
setting — negative values included — it returns true exactly when `now`
exceeds `created + validityHours` hours; with 24 hours, a record created
25 hours ago is expired and one created 1 hour ago is not. -/
theorem C5_is_expired_amended (v n : Int) (rec : AgreementRecord)
    (hv : v ≠ 0) :
    AgreementRecord.is_expired none n rec = false ∧
    AgreementRecord.is_expired (some 0) n rec = false ∧
    (AgreementRecord.is_expired (some v) n rec = true ↔
      n > rec.created + v * 3600) ∧
    AgreementRecord.is_expired (some 24) (25 * 3600) { rec with created := 0 } = true ∧
    AgreementRecord.is_expired (some 24) 3600 { rec with created := 0 } = false := by
  refine ⟨rfl, by simp [AgreementRecord.is_expired], ?_, ?_, ?_⟩
  · simp [AgreementRecord.is_expired, hv]
  · simp [AgreementRecord.is_expired]
  · simp [AgreementRecord.is_expired]

/-- C5 amended, witnessed at the setting `-1` and a one-hour-old record. -/
theorem C5_is_expired_amended_witness :
    AgreementRecord.is_expired (some 0) 3600 agRec0 = false ∧
    (AgreementRecord.is_expired (some (-1)) 3600 agRec0 = true ↔
      (3600 : Int) > agRec0.created + (-1) * 3600) :=
  ⟨(C5_is_expired_amended (-1) 3600 agRec0 (by decide)).2.1,
   (C5_is_expired_amended (-1) 3600 agRec0 (by decide)).2.2.1⟩

/-- C8: `wants_more_attrs` is true iff the requested attributes are not all
contained in the comma-split stored attribute set; stored `"email"` with
request `{email, first_name}` gives true, stored `"email,first_name"` with
request `{email}` gives false. -/
theorem C8_wants_more_attrs (rec : AgreementRecord) (req : List String) :
    (rec.wants_more_attrs req = true ↔
      ¬(∀ a ∈ req, a ∈ splitComma rec.attrs)) ∧
    AgreementRecord.wants_more_attrs
      { agRec0 with attrs := "email" } ["email", "first_name"] = true ∧
    AgreementRecord.wants_more_attrs
      { agRec0 with attrs := "email,first_name" } ["email"] = false := by
  refine ⟨?_, by decide, by decide⟩
  simp [AgreementRecord.wants_more_attrs, List.any_eq_true]

/-- C1 counterexample: a non-200 response (status 500) for an `mdq` source
forces `is_active=false` but the call still sets `is_valid=true` and
returns success — the claim says a non-200 status leaves the entry invalid
with `is_valid` not becoming true. -/
theorem C1_counterexample :
    mdqBad.is_valid = false ∧ mdqBad.is_active = true ∧
    (MetadataStore.validate jpK0 c500 mdqBad).1.is_active = false ∧
    (MetadataStore.validate jpK0 c500 mdqBad).1.is_valid = true ∧
    (MetadataStore.validate jpK0 c500 mdqBad).2 = .ok true := by decide

/-- C1 amended: for kind `remote` (resp. `mdq`) the validation issues an
HTTP GET to the URL (resp. a HEAD to `<url>/entities/`).  A transport
error makes the entry invalid: `is_active` is forced false, `is_valid`
tracks it, and the transport error is raised.  A response with a non-200
status, however, only forces `is_active=false` — the call still sets
`is_valid=true` and returns success (the failure is merely logged).  A 200
response leaves `is_active` as configured and sets `is_valid=true`.
(Throughout, `kwargs` is assumed to parse.) -/
theorem C1_validateMetadataSource_amended (jp : JsonLoads)
    (c : MDSCheckOutcomes) (s : MetadataStore) (u : String) (k : JsonDict)
    (hu : s.url = some u) (hk : jp s.kwargs = .ok k)
    (ht : s.type = MDSType.mdq ∨ s.type = MDSType.remote) :
    (s.type = MDSType.mdq →
      mdsRequest s = some (HttpMethod.head, u ++ "/entities/")) ∧
    (s.type = MDSType.remote → mdsRequest s = some (HttpMethod.get, u)) ∧
    (∀ e, c.http = .error e →
      (MetadataStore.validate jp c s).1.is_active = false ∧
      (MetadataStore.validate jp c s).1.is_valid = false ∧
      (MetadataStore.validate jp c s).2 =
        .error ("Endpoint is not reachable: " ++ e)) ∧
    (∀ st, c.http = .ok st → st ≠ 200 →
      (MetadataStore.validate jp c s).1.is_active = false ∧
      (MetadataStore.validate jp c s).1.is_valid = true ∧
      (MetadataStore.validate jp c s).2 = .ok true) ∧
    (c.http = .ok 200 →
      (MetadataStore.validate jp c s).1.is_active = s.is_active ∧
      (MetadataStore.validate jp c s).1.is_valid = true) := by
  rcases ht with ht | ht <;>
  · refine ⟨?_, ?_, ?_, ?_, ?_⟩
    · intro h; simp [mdsRequest, h, hu]
    · intro h; simp [mdsRequest, h, hu]
    · intro e he
      simp [MetadataStore.validate, ht, he, hk]
    · intro st hst hne
      simp [MetadataStore.validate, ht, hst, hk, hne]
    · intro h200
      simp [MetadataStore.validate, ht, h200, hk]

/-- C1 amended, witnessed on the `mdq` entry with a transport error and on
a non-200 response. -/
theorem C1_validateMetadataSource_amended_witness :
    mdsRequest mdqBad = some (HttpMethod.head, "https://mdq.example.org/entities/") ∧
    (MetadataStore.validate jpK0 cErr mdqBad).1.is_active = false ∧
    (MetadataStore.validate jpK0 cErr mdqBad).1.is_valid = false ∧
    (MetadataStore.validate jpK0 cErr mdqBad).2 =
      .error ("Endpoint is not reachable: " ++ "down") ∧
    (MetadataStore.validate jpK0 c500 mdqBad).1.is_valid = true := by
  have h1 := C1_validateMetadataSource_amended jpK0 cErr mdqBad
    "https://mdq.example.org" [] rfl rfl (Or.inl rfl)
  have h2 := C1_validateMetadataSource_amended jpK0 c500 mdqBad
    "https://mdq.example.org" [] rfl rfl (Or.inl rfl)
  refine ⟨h1.1 rfl, (h1.2.2.1 "down" rfl).1, (h1.2.2.1 "down" rfl).2.1,
    (h1.2.2.1 "down" rfl).2.2, (h2.2.2.2.1 500 rfl (by decide)).2.1⟩

/-- C2: a gated `mdq` entry's descriptor is a mapping containing a `url`
key, so `as_pysaml_mdstore_dict` regroups it under `remote` — the `mdq`
key stays empty, contradicting the function's own docstring example, which
shows mdq sources grouped under `"mdq"`. -/
theorem C2_mdq_descriptor_regrouped_under_remote :
    mdqStore.type = MDSType.mdq ∧ mdGate mdqStore = true ∧
    as_pysaml_mdstore_dict jpK0 false [mdqStore] =
      .ok { remote := [.dict [("url", some "https://mdq.example.org")]],
            mdq := [], local_ := [] } := by decide

/-- Each loop iteration of `as_pysaml_mdstore_dict` appends exactly one
descriptor to the snapshot. -/
theorem addRow_total (d : MdStoreDict) (t : MDSType) (v : SourceDescriptor) :
    (d.addRow t v).remote.length + (d.addRow t v).mdq.length +
      (d.addRow t v).local_.length =
    d.remote.length + d.mdq.length + d.local_.length + 1 := by
  unfold MdStoreDict.addRow
  cases h : hasUrlKey v <;> simp only [h] <;> cases t <;>
    simp [List.length_append] <;> omega

/-- A successful run of the snapshot loop adds one descriptor per visited
store. -/
theorem mdstore_go_total (jp : JsonLoads) (s3 : Bool) :
    ∀ (l : List MetadataStore) (d r : MdStoreDict),
      as_pysaml_mdstore_dict_go jp s3 l d = .ok r →
      r.remote.length + r.mdq.length + r.local_.length =
        d.remote.length + d.mdq.length + d.local_.length + l.length := by
  intro l
  induction l with
  | nil =>
    intro d r h
    simp only [as_pysaml_mdstore_dict_go] at h
    cases h
    simp
  | cons s rest ih =>
    intro d r h
    simp only [as_pysaml_mdstore_dict_go] at h
    cases hrow : s.as_pysaml2_mdstore_row jp s3 with
    | error e => rw [hrow] at h; cases h
    | ok v =>
      rw [hrow] at h
      have := ih _ _ h
      rw [this, addRow_total]
      simp [List.length_cons]
      omega

/-- C9: `activeSources` builds descriptors only from entries passing the
`is_active ∧ is_valid` gate: dropping any entry failing the gate —
inactive, or active-but-invalid — from the table leaves the snapshot
unchanged, and a successful snapshot holds exactly one descriptor per
gated entry. -/
theorem C9_activeSources_gate (jp : JsonLoads) (s3 : Bool)
    (l1 l2 : List MetadataStore) (s : MetadataStore)
    (h : s.is_active = false ∨ s.is_valid = false) :
    as_pysaml_mdstore_dict jp s3 (l1 ++ s :: l2) =
      as_pysaml_mdstore_dict jp s3 (l1 ++ l2) ∧
    (∀ stores r, as_pysaml_mdstore_dict jp s3 stores = .ok r →
      r.remote.length + r.mdq.length + r.local_.length =
        (stores.filter mdGate).length) := by
  constructor
  · have hg : mdGate s = false := by
      rcases h with h | h <;> simp [mdGate, h]
    unfold as_pysaml_mdstore_dict
    rw [List.filter_append, List.filter_cons, hg]
    rw [List.filter_append]
    simp
  · intro stores r hr
    unfold as_pysaml_mdstore_dict at hr
    have := mdstore_go_total jp s3 _ _ _ hr
    simpa [MdStoreDict.empty] using this

/-- C9, witnessed: deactivating the gated `mdq` store removes it from the
snapshot, and the snapshot of the single gated store has one descriptor. -/
theorem C9_activeSources_gate_witness :
    as_pysaml_mdstore_dict jpK0 false [mdqOff] =
      as_pysaml_mdstore_dict jpK0 false [] ∧
    mdqSnap.remote.length + mdqSnap.mdq.length + mdqSnap.local_.length =
      ([mdqStore].filter mdGate).length := by
  have h := C9_activeSources_gate jpK0 false [] [] mdqOff (Or.inl rfl)
  exact ⟨h.1, h.2 [mdqStore] mdqSnap (by decide)⟩

/-- Mapping a Python dict assignment over the stored pairs leaves each
pair's key-matches-`e` status unchanged. -/
theorem dictSet_map_pred {α : Type} (k : String) (v : α) (e : String) :
    ((fun (p : String × α) => p.1 == e) ∘
      (fun (p : String × α) => if p.1 == k then (k, v) else p)) =
    (fun (p : String × α) => p.1 == e) := by
  funext p
  by_cases hp : p.1 = k
  · simp [Function.comp, hp]
  · simp [Function.comp, hp]

/-- After `d[k] = v`, the dict has a pair keyed `e` iff it had one or
`k = e`. -/
theorem dictSet_any_key {α : Type} (d : List (String × α)) (k : String)
    (v : α) (e : String) :
    (dictSet d k v).any (fun p => p.1 == e) =
      (d.any (fun p => p.1 == e) || (k == e)) := by
  unfold dictSet
  by_cases ha : d.any (fun p => p.1 == k)
  · rw [if_pos ha, List.any_map, dictSet_map_pred]
    by_cases hk : k = e
    · subst hk
      simp [ha]
    · simp [hk]
  · rw [if_neg ha]
    simp [List.any_append]

/-- `d[k] = v` never duplicates a key: a key occurring at most once keeps
occurring at most once. -/
theorem dictSet_countP {α : Type} (d : List (String × α)) (k : String)
    (v : α) (e : String) (h : d.countP (fun p => p.1 == e) ≤ 1) :
    (dictSet d k v).countP (fun p => p.1 == e) ≤ 1 := by
  unfold dictSet
  by_cases ha : d.any (fun p => p.1 == k)
  · rw [if_pos ha, List.countP_map, dictSet_map_pred]
    exact h
  · rw [if_neg ha, List.countP_append]
    by_cases hk : k = e
    · subst hk
      have h0 : d.countP (fun p => p.1 == k) = 0 := by
        rw [List.countP_eq_zero]
        intro p hp hpk
        exact ha (List.any_eq_true.mpr ⟨p, hp, hpk⟩)
      rw [h0]
      simp [List.countP_cons]
    · have h0 : ([(k, v)].countP (fun p => p.1 == e)) = 0 := by
        simp [List.countP_cons, hk]
      rw [h0]
      omega

/-- Keys present after a successful run of the configuration loop: those
of the initial dict together with the visited entity ids. -/
theorem spconfig_go_keys (jp : JsonLoads) (e : String) :
    ∀ (l : List ServiceProvider) (d0 d : List (String × IdpSpConfigElement)),
      as_idpspconfig_dict_go jp l d0 = .ok d →
      d.any (fun p => p.1 == e) =
        (d0.any (fun p => p.1 == e) || l.any (fun sp => sp.entity_id == e)) := by
  intro l
  induction l with
  | nil =>
    intro d0 d h
    simp only [as_idpspconfig_dict_go] at h
    cases h
    simp
  | cons sp rest ih =>
    intro d0 d h
    simp only [as_idpspconfig_dict_go] at h
    cases hel : sp.as_idpspconfig_dict_element jp with
    | error e2 => rw [hel] at h; cases h
    | ok el =>
      rw [hel] at h
      rw [ih _ _ h, dictSet_any_key]
      simp [Bool.or_assoc]

/-- The configuration loop preserves at-most-once key occurrence. -/
theorem spconfig_go_countP (jp : JsonLoads) (e : String) :
    ∀ (l : List ServiceProvider) (d0 d : List (String × IdpSpConfigElement)),
      as_idpspconfig_dict_go jp l d0 = .ok d →
      d0.countP (fun p => p.1 == e) ≤ 1 →
      d.countP (fun p => p.1 == e) ≤ 1 := by
  intro l
  induction l with
  | nil =>
    intro d0 d h h0
    simp only [as_idpspconfig_dict_go] at h
    cases h
    exact h0
  | cons sp rest ih =>
    intro d0 d h h0
    simp only [as_idpspconfig_dict_go] at h
    cases hel : sp.as_idpspconfig_dict_element jp with
    | error e2 => rw [hel] at h; cases h
    | ok el =>
      rw [hel] at h
      exact ih _ _ h (dictSet_countP _ _ _ _ h0)

/-- The configuration loop reads no `is_valid` flag. -/
theorem spconfig_go_map_valid (jp : JsonLoads) (f : ServiceProvider → Bool) :
    ∀ (l : List ServiceProvider) (d : List (String × IdpSpConfigElement)),
      as_idpspconfig_dict_go jp
        (l.map (fun sp => { sp with is_valid := f sp })) d =
      as_idpspconfig_dict_go jp l d := by
  intro l
  induction l with
  | nil => intro d; rfl
  | cons sp rest ih =>
    intro d
    simp only [List.map_cons, as_idpspconfig_dict_go]
    have hg : ServiceProvider.as_idpspconfig_dict_element jp
        { sp with is_valid := f sp } = sp.as_idpspconfig_dict_element jp := rfl
    rw [hg]
    cases hel : sp.as_idpspconfig_dict_element jp with
    | error e2 => rfl
    | ok el => exact ih _

/-- `as_idpspconfig_dict` reads no `is_valid` flag. -/
theorem spconfig_map_valid (jp : JsonLoads) (f : ServiceProvider → Bool)
    (sps : List ServiceProvider) :
    as_idpspconfig_dict jp (sps.map (fun sp => { sp with is_valid := f sp })) =
      as_idpspconfig_dict jp sps := by
  unfold as_idpspconfig_dict
  rw [List.filter_map]
  have hq : ((fun sp : ServiceProvider => sp.is_active) ∘
      (fun sp => { sp with is_valid := f sp })) =
      (fun sp : ServiceProvider => sp.is_active) := rfl
  rw [hq]
  exact spconfig_go_map_valid jp f _ _

/-- C7: a successful `activeConfiguration` snapshot has a record keyed by
entity id exactly for the entries with `is_active=true`, each key occurs
at most once, and the snapshot is unchanged by arbitrarily rewriting every
entry's `is_valid` flag — activity alone decides inclusion. -/
theorem C7_activeConfiguration (jp : JsonLoads) (sps : List ServiceProvider)
    (d : List (String × IdpSpConfigElement)) (f : ServiceProvider → Bool)
    (hok : as_idpspconfig_dict jp sps = .ok d) :
    (∀ e : String, d.any (fun p => p.1 == e) =
        sps.any (fun sp => sp.is_active && (sp.entity_id == e))) ∧
    (∀ e : String, d.countP (fun p => p.1 == e) ≤ 1) ∧
    as_idpspconfig_dict jp (sps.map (fun sp => { sp with is_valid := f sp })) =
      .ok d := by
  refine ⟨?_, ?_, ?_⟩
  · intro e
    have h := spconfig_go_keys jp e _ _ _ hok
    simpa [List.any_filter] using h
  · intro e
    exact spconfig_go_countP jp e _ _ _ hok (by simp)
  · rw [spconfig_map_valid]
    exact hok

/-- C7, witnessed on the table `[spGood, spOff]`. -/
theorem C7_activeConfiguration_witness :
    (dGood.any (fun p => p.1 == "https://good.example.org/saml") =
      [spGood, spOff].any (fun sp =>
        sp.is_active && (sp.entity_id == "https://good.example.org/saml"))) ∧
    dGood.countP (fun p => p.1 == "https://off.example.org/saml") ≤ 1 ∧
    as_idpspconfig_dict jpK0
      ([spGood, spOff].map (fun sp => { sp with is_valid := false })) =
      .ok dGood := by
  have h := C7_activeConfiguration jpK0 [spGood, spOff] dGood
    (fun _ => false) (by decide)
  exact ⟨h.1 _, h.2.1 _, h.2.2⟩

/-- A successful configuration loop implies every visited entry's
projection succeeded. -/
theorem spconfig_go_ok (jp : JsonLoads) :
    ∀ (l : List ServiceProvider) (d0 d : List (String × IdpSpConfigElement)),
      as_idpspconfig_dict_go jp l d0 = .ok d →
      ∀ sp ∈ l, ∃ el, sp.as_idpspconfig_dict_element jp = .ok el := by
  intro l
  induction l with
  | nil =>
    intro d0 d h sp hsp
    simp at hsp
  | cons s rest ih =>
    intro d0 d h sp hsp
    simp only [as_idpspconfig_dict_go] at h
    cases hel : s.as_idpspconfig_dict_element jp with
    | error e => rw [hel] at h; cases h
    | ok el =>
      rw [hel] at h
      rcases List.mem_cons.mp hsp with rfl | hmem
      · exact ⟨el, hel⟩
      · exact ih _ _ h sp hmem

/-- A successful snapshot loop implies every visited store's descriptor
build succeeded. -/
theorem mdstore_go_ok (jp : JsonLoads) (s3 : Bool) :
    ∀ (l : List MetadataStore) (d0 r : MdStoreDict),
      as_pysaml_mdstore_dict_go jp s3 l d0 = .ok r →
      ∀ s ∈ l, ∃ v, s.as_pysaml2_mdstore_row jp s3 = .ok v := by
  intro l
  induction l with
  | nil =>
    intro d0 r h s hs
    simp at hs
  | cons t rest ih =>
    intro d0 r h s hs
    simp only [as_pysaml_mdstore_dict_go] at h
    cases hrow : t.as_pysaml2_mdstore_row jp s3 with
    | error e => rw [hrow] at h; cases h
    | ok v =>
      rw [hrow] at h
      rcases List.mem_cons.mp hs with rfl | hmem
      · exact ⟨v, hrow⟩
      · exact ih _ _ h s hmem

/-- C3 counterexample: two active SP entries, one with an unparsable
stored mapping; `activeConfiguration` raises and returns no entries — the
good gated entry `spGood` is not included, though the claim says a bad
entry only excludes itself. -/
theorem C3_counterexample :
    spGood.is_active = true ∧ spBad.is_active = true ∧
    as_idpspconfig_dict jpK0 [spGood, spBad] = .error "boom" := by decide

/-- C3 amended: there is no per-entry isolation. A projection failure for
one gated entry aborts the whole snapshot: when any active SP entry's
stored mapping fails to parse, `activeConfiguration` returns no snapshot
at all, and when any gated metadata entry's descriptor build fails,
`activeSources` likewise returns no snapshot — per-entry exclusion happens
only through the activity/validity gate. -/
theorem C3_no_per_entry_isolation (jp : JsonLoads) (s3 : Bool)
    (sps : List ServiceProvider) (sp : ServiceProvider) (e : String)
    (hmem : sp ∈ sps) (hact : sp.is_active = true)
    (hbad : jp sp.attribute_mapping = .error e)
    (stores : List MetadataStore) (t : MetadataStore) (v : String)
    (htm : t ∈ stores) (hg : mdGate t = true)
    (hbad2 : t.as_pysaml2_mdstore_row jp s3 = .error v) :
    (∀ d, as_idpspconfig_dict jp sps ≠ .ok d) ∧
    (∀ r, as_pysaml_mdstore_dict jp s3 stores ≠ .ok r) := by
  constructor
  · intro d hok
    have hmem2 : sp ∈ sps.filter (fun sp => sp.is_active) :=
      List.mem_filter.mpr ⟨hmem, by simp [hact]⟩
    obtain ⟨el, hel⟩ := spconfig_go_ok jp _ _ _ hok sp hmem2
    simp [ServiceProvider.as_idpspconfig_dict_element, hbad] at hel
  · intro r hok
    have hmem2 : t ∈ stores.filter mdGate := List.mem_filter.mpr ⟨htm, hg⟩
    obtain ⟨w, hw⟩ := mdstore_go_ok jp s3 _ _ _ hok t hmem2
    rw [hbad2] at hw
    cases hw

/-- C3 amended, witnessed: the bad mapping of `spBad` suppresses the whole
configuration snapshot, and the bad `kwargs` of `tBad` suppresses the
whole metadata snapshot. -/
theorem C3_no_per_entry_isolation_witness :
    as_idpspconfig_dict jpK0 [spGood, spBad] ≠ .ok dGood ∧
    as_pysaml_mdstore_dict jpK0 false [tBad] ≠ .ok MdStoreDict.empty := by
  have h := C3_no_per_entry_isolation jpK0 false [spGood, spBad] spBad "boom"
    (by decide) rfl rfl [tBad] tBad "boom" (by decide) rfl rfl
  exact ⟨h.1 dGood, h.2 MdStoreDict.empty⟩

/-- The unique-constraint relation is symmetric. -/
theorem pidConstraint_symm : Symmetric pidConstraint := by
  intro a b h
  exact ⟨fun hc => h.1 ⟨hc.1.symm, hc.2.symm⟩,
         fun hc => h.2 ⟨hc.1.symm, hc.2.symm⟩⟩

/-- A value returned by the allocation loop collides with no stored
`(sp, persistent_id)` pair. -/
theorem allocate_fresh (gen : Nat → Nat) (sp : Nat) (db : List PersistentId) :
    ∀ (fuel k id : Nat), allocate gen sp db fuel k = some id →
      ∀ r ∈ db, ¬(r.sp = sp ∧ r.persistent_id = id) := by
  intro fuel
  induction fuel with
  | zero => intro k id h; simp [allocate] at h
  | succ n ih =>
    intro k id h r hr hc
    simp only [allocate] at h
    by_cases hany : db.any (fun r => r.sp == sp && r.persistent_id == gen k)
    · rw [if_pos hany] at h
      exact ih (k + 1) id h r hr hc
    · rw [if_neg hany] at h
      injection h with h
      apply hany
      rw [List.any_eq_true]
      exact ⟨r, hr, by simp [hc.1, h, hc.2]⟩

/-- Case analysis of `get_or_create`: either the `(sp, user)` row existed
and is returned with the table unchanged, or no such row existed and a
fresh non-colliding row is appended. -/
theorem goc_spec (gen : Nat → Nat) (fuel u sp : Nat)
    (db : List PersistentId) (id : Nat) (db2 : List PersistentId)
    (h : get_or_create gen fuel u sp db = some (id, db2)) :
    (∃ r, db.find? (fun r => r.sp == sp && r.user == u) = some r ∧
      id = r.persistent_id ∧ db2 = db) ∨
    ((∀ r ∈ db, ¬(r.sp = sp ∧ r.user = u)) ∧
     (∀ r ∈ db, ¬(r.sp = sp ∧ r.persistent_id = id)) ∧
     db2 = db ++ [{ user := u, sp := sp, persistent_id := id }]) := by
  unfold get_or_create at h
  cases hf : db.find? (fun r => r.sp == sp && r.user == u) with
  | some r =>
    rw [hf] at h
    simp only [Option.some.injEq, Prod.mk.injEq] at h
    left
    exact ⟨r, rfl, h.1.symm, h.2.symm⟩
  | none =>
    rw [hf] at h
    cases hal : allocate gen sp db fuel 0 with
    | none => rw [hal] at h; cases h
    | some pid =>
      rw [hal] at h
      simp only [Option.some.injEq, Prod.mk.injEq] at h
      right
      refine ⟨?_, ?_, ?_⟩
      · intro r hr hc
        have hmiss := List.find?_eq_none.mp hf r hr
        apply hmiss
        simp [hc.1, hc.2]
      · intro r hr hc
        exact allocate_fresh gen sp db fuel 0 pid hal r hr
          ⟨hc.1, hc.2.trans h.1.symm⟩
      · rw [← h.2, h.1]

/-- After a successful `get_or_create`, the `(sp, user)` row with the
returned identifier is in the table. -/
theorem goc_mem (gen : Nat → Nat) (fuel u sp : Nat)
    (db : List PersistentId) (id : Nat) (db2 : List PersistentId)
    (h : get_or_create gen fuel u sp db = some (id, db2)) :
    ∃ r ∈ db2, r.user = u ∧ r.sp = sp ∧ r.persistent_id = id := by
  rcases goc_spec gen fuel u sp db id db2 h with
    ⟨r, hf, hid, hdb⟩ | ⟨hnou, hnoid, hdb⟩
  · subst hdb
    have hp := List.find?_some hf
    simp only [Bool.and_eq_true, beq_iff_eq] at hp
    exact ⟨r, List.mem_of_find?_eq_some hf, hp.2, hp.1, hid.symm⟩
  · subst hdb
    exact ⟨{ user := u, sp := sp, persistent_id := id }, by simp, rfl, rfl, rfl⟩

/-- `get_or_create` preserves the two unique constraints. -/
theorem goc_preserves (gen : Nat → Nat) (fuel u sp : Nat)
    (db : List PersistentId) (id : Nat) (db2 : List PersistentId)
    (hdb : uniquePairs db)
    (h : get_or_create gen fuel u sp db = some (id, db2)) :
    uniquePairs db2 := by
  rcases goc_spec gen fuel u sp db id db2 h with
    ⟨r, hf, hid, hdb2⟩ | ⟨hnou, hnoid, hdb2⟩
  · subst hdb2
    exact hdb
  · subst hdb2
    unfold uniquePairs at hdb ⊢
    rw [List.pairwise_append]
    refine ⟨hdb, List.pairwise_singleton _ _, ?_⟩
    intro a ha b hb
    simp only [List.mem_singleton] at hb
    subst hb
    exact ⟨fun hc => hnoid a ha ⟨hc.1, hc.2⟩, fun hc => hnou a ha ⟨hc.1, hc.2⟩⟩

/-- A second `get_or_create` for the same `(user, sp)` pair — with any
generator and any retry bound — returns the same identifier and leaves
the table unchanged. -/
theorem goc_again (gen : Nat → Nat) (fuel u sp : Nat)
    (db : List PersistentId) (id : Nat) (db2 : List PersistentId)
    (h : get_or_create gen fuel u sp db = some (id, db2)) :
    ∀ (gen2 : Nat → Nat) (fuel2 : Nat),
      get_or_create gen2 fuel2 u sp db2 = some (id, db2) := by
  intro gen2 fuel2
  rcases goc_spec gen fuel u sp db id db2 h with
    ⟨r, hf, hid, hdb2⟩ | ⟨hnou, hnoid, hdb2⟩
  · subst hdb2
    unfold get_or_create
    rw [hf, hid]
  · subst hdb2
    unfold get_or_create
    rw [List.find?_append]
    have h1 : db.find? (fun r => r.sp == sp && r.user == u) = none := by
      rw [List.find?_eq_none]
      intro r hr hp
      simp only [Bool.and_eq_true, beq_iff_eq] at hp
      exact hnou r hr ⟨hp.1, hp.2⟩
    rw [h1]
    simp [List.find?]

/-- C6: `get_or_create` keeps the table satisfying the `(sp, user)` and
`(sp, persistent_id)` unique constraints; a repeated call for the same
pair returns the identical identifier with the table unchanged; and a call
for a different user at the same SP never returns that identifier. -/
theorem C6_persistent_identifier (gen : Nat → Nat) (fuel : Nat) (u sp : Nat)
    (db : List PersistentId) (hdb : uniquePairs db) (id : Nat)
    (db2 : List PersistentId)
    (hrun : get_or_create gen fuel u sp db = some (id, db2)) :
    uniquePairs db2 ∧
    (∀ (gen2 : Nat → Nat) (fuel2 : Nat),
      get_or_create gen2 fuel2 u sp db2 = some (id, db2)) ∧
    (∀ (u2 : Nat) (gen2 : Nat → Nat) (fuel2 id2 : Nat)
        (db3 : List PersistentId), u2 ≠ u →
      get_or_create gen2 fuel2 u2 sp db2 = some (id2, db3) → id2 ≠ id) := by
  have hpres := goc_preserves gen fuel u sp db id db2 hdb hrun
  refine ⟨hpres, goc_again gen fuel u sp db id db2 hrun, ?_⟩
  intro u2 gen2 fuel2 id2 db3 hne h2 heq
  subst heq
  obtain ⟨r0, hr0mem, hr0u, hr0sp, hr0id⟩ :=
    goc_mem gen fuel u sp db id2 db2 hrun
  rcases goc_spec gen2 fuel2 u2 sp db2 id2 db3 h2 with
    ⟨r2, hf2, hid2, _⟩ | ⟨_, hnoid2, _⟩
  · have hp2 := List.find?_some hf2
    simp only [Bool.and_eq_true, beq_iff_eq] at hp2
    have hr2mem := List.mem_of_find?_eq_some hf2
    have hneq : r0 ≠ r2 := by
      intro hEq
      apply hne
      rw [← hp2.2, ← hEq, hr0u]
    have hR := (List.Pairwise.forall pidConstraint_symm hpres) hr0mem hr2mem hneq
    exact hR.1 ⟨hr0sp.trans hp2.1.symm, hr0id.trans hid2⟩
  · exact hnoid2 r0 hr0mem ⟨hr0sp, hr0id⟩

/-- C6, witnessed: allocating for user 0 at SP 5 on an empty table, the
repeated call returns the same identifier, and user 1's identifier at the
same SP differs. -/
theorem C6_persistent_identifier_witness :
    uniquePairs pidDb1 ∧
    get_or_create pidGen 1 0 5 pidDb1 = some (0, pidDb1) ∧
    (1 : Nat) ≠ 0 := by
  have h := C6_persistent_identifier pidGen 1 0 5 [] List.Pairwise.nil 0
    pidDb1 (by decide)
  exact ⟨h.1, h.2.1 pidGen 1, h.2.2 1 pidGen 2 1 pidDb2 (by decide) (by decide)⟩

end UniAuth
